import Mathlib

/-!
Verification of the SociaSync scheduled-publication pipeline.

This file gives a shallow embedding of the publication pipeline of the
repository (backend/src/services/queueService.ts, the unnamed service file
holding JobQueueService / createPostWorker, the posts router, and the
platform adapter guards), and proves or refutes the frozen claims about it.

Modelling conventions:
 - Mongoose documents become Lean structures; `findByIdAndUpdate` becomes a
   functional update of the stored post.
 - Timestamps are integers (epoch milliseconds); `new Date()` is a `now`
   parameter threaded through each operation.
 - The remote platform calls are an oracle `NetOracle`; an `Except.error`
   is a thrown adapter error, `Except.ok id` a successful publish returning
   the external post id.  One oracle consultation counts as one network
   interaction (the real adapters make one or more HTTP calls there).
 - Thrown JS exceptions become `Except` values or an explicit `threw` flag.
-/

namespace SociaSync

/-- The platform enumeration (`'twitter' | 'linkedin' | 'instagram'`,
backend/src/models/Post.ts line 11). -/
inductive Platform
  | twitter
  | linkedin
  | instagram
deriving DecidableEq, Repr

/-- Platform name as interpolated into error messages. -/
def Platform.pname : Platform → String
  | .twitter => "twitter"
  | .linkedin => "linkedin"
  | .instagram => "instagram"

/-- Post lifecycle status (`'draft' | 'scheduled' | 'published' | 'failed'`,
backend/src/models/Post.ts line 10). -/
inductive Status
  | draft
  | scheduled
  | published
  | failed
deriving DecidableEq, Repr

/-- One per-platform outcome entry (`publishResults` items,
backend/src/models/Post.ts lines 12-18; the `publishedAt` timestamp of an
entry is not needed by any claim and is omitted). -/
structure PublishResult where
  platform : Platform
  success : Bool
  publishedId : Option String := none
  error : Option String := none
deriving DecidableEq, Repr

/-- A social-account credential (models/SocialAccount, one per
(user, platform), with the fields the pipeline reads). -/
structure SocialAccount where
  userId : String
  platform : Platform
  accessToken : String
  isActive : Bool
deriving DecidableEq, Repr

/-- The Post document (backend/src/models/Post.ts lines 3-30), restricted to
the fields the publication pipeline reads or writes. -/
structure Post where
  userId : String
  content : String
  imageUrl : Option String := none
  scheduledAt : Option Int := none
  publishedAt : Option Int := none
  status : Status := .draft
  platforms : List Platform
  publishResults : List PublishResult := []
  jobId : Option String := none
  retryCount : Nat := 0
deriving DecidableEq, Repr

/-- `SocialAccount.findOne({ userId, platform, isActive: true })`
(queueService.ts lines 103-107). -/
def findActiveAccount (accounts : List SocialAccount) (userId : String)
    (p : Platform) : Option SocialAccount :=
  accounts.find? fun a =>
    decide (a.userId = userId ∧ a.platform = p ∧ a.isActive = true)

/-- The external world of the platform adapters: given the platform, the
content, the optional image URL and the access token, either an external
post id or a thrown error message. -/
def NetOracle : Type :=
  Platform → String → Option String → String → Except String String

/-- The error thrown at queueService.ts line 110 when no active account
exists for the platform. -/
def noAccountError (p : Platform) (userId : String) : String :=
  "No active " ++ p.pname ++ " account found for user " ++ userId

/-- Convert an adapter call result into the outcome entry the worker pushes
(queueService.ts lines 148-166). -/
def ofAdapter (p : Platform) (r : Except String String) : PublishResult :=
  match r with
  | .ok id => { platform := p, success := true, publishedId := some id }
  | .error e => { platform := p, success := false, error := some e }

/-- One iteration of the per-platform loop of the queueService worker
(queueService.ts lines 98-167): resolve the active account, then the
platform switch; the `instagram` case throws before any network call when
`imageUrl` is absent (lines 133-136).  Returns the recorded outcome entry
and the number of network interactions made. -/
def attemptPlatform (accounts : List SocialAccount) (userId : String)
    (net : NetOracle) (content : String) (imageUrl : Option String)
    (p : Platform) : PublishResult × Nat :=
  match findActiveAccount accounts userId p with
  | none =>
      ({ platform := p, success := false,
         error := some (noAccountError p userId) }, 0)
  | some acc =>
      match p, imageUrl with
      | .instagram, none =>
          ({ platform := p, success := false,
             error := some "Instagram posts require an image" }, 0)
      | _, _ => (ofAdapter p (net p content imageUrl acc.accessToken), 1)

/-- The job payload of the queueService queue (`JobData`:
postId, userId, platforms, content, imageUrl). -/
structure JobData where
  postId : String
  userId : String
  platforms : List Platform
  content : String
  imageUrl : Option String := none
deriving DecidableEq, Repr

/-- The observable result of one handler invocation: the stored post after
the run, whether the handler threw (a thrown handler signals job failure to
BullMQ), and how many network interactions were made. -/
structure WorkerOut where
  post : Option Post
  threw : Bool
  calls : Nat
deriving DecidableEq, Repr

/-- The per-platform results of one queueService worker invocation
(the `results` array built by the loop at queueService.ts lines 95-167),
paired with each attempt's network-call count. -/
def gwResults (accounts : List SocialAccount) (net : NetOracle)
    (jd : JobData) : List (PublishResult × Nat) :=
  jd.platforms.map (attemptPlatform accounts jd.userId net jd.content jd.imageUrl)

/-- The condition under which the queueService worker throws after the loop
(queueService.ts line 177: `hasFailures && results.every(r => !r.success)`). -/
def gwAllFailed (accounts : List SocialAccount) (net : NetOracle)
    (jd : JobData) : Bool :=
  let results := (gwResults accounts net jd).map Prod.fst
  (results.any fun r => !r.success) && (results.all fun r => !r.success)

/-- The queueService worker handler (queueService.ts lines 77-197).
Steps, as in the source: load the post (throw if absent); immediately mark
it `published` with `publishedAt = now` (lines 90-93); run the per-platform
loop; store `publishResults` and set status `failed` when any outcome
failed, `published` otherwise (lines 170-174); when every platform failed,
throw to trigger the queue retry — the catch block then sets status
`failed` and increments `retryCount` (lines 183-192).  There is no check of
the post's current status anywhere. -/
def getWorkerBody (accounts : List SocialAccount) (net : NetOracle)
    (jd : JobData) (p : Post) (now : Int) : WorkerOut :=
  let p1 := { p with status := Status.published, publishedAt := some now }
  let rs := gwResults accounts net jd
  let results := rs.map Prod.fst
  let calls := (rs.map Prod.snd).sum
  let hasFailures := results.any fun r => !r.success
  let p2 := { p1 with
    publishResults := results,
    status := if hasFailures then Status.failed else Status.published }
  if hasFailures && (results.all fun r => !r.success) then
    { post := some { p2 with status := Status.failed,
                             retryCount := p2.retryCount + 1 },
      threw := true, calls := calls }
  else
    { post := some p2, threw := false, calls := calls }

/-- The queueService worker handler on the loaded post: `getWorkerBody`
when the post exists, the throwing not-found path otherwise. -/
def getWorkerRun (accounts : List SocialAccount) (net : NetOracle)
    (jd : JobData) (stored : Option Post) (now : Int) : WorkerOut :=
  match stored with
  | none => { post := none, threw := true, calls := 0 }
  | some p => getWorkerBody accounts net jd p now

/-- The accounts the createPostWorker handler loads
(`SocialAccount.find({ userId: post.userId, platform: { $in: post.platforms },
isActive: true })`, unnamed service file lines 487-491).  Note the loop that
follows iterates over these accounts, not over the post's platforms. -/
def cpwAccounts (accounts : List SocialAccount) (p : Post) :
    List SocialAccount :=
  accounts.filter fun a =>
    decide (a.userId = p.userId ∧ a.platform ∈ p.platforms ∧ a.isActive = true)

/-- One iteration of createPostWorker's per-account loop (unnamed service
file lines 503-537): `socialMediaService.publishPost` is the adapter
boundary; a normal return records a success entry, a thrown error records a
failure entry. -/
def cpwAttempt (net : NetOracle) (p : Post) (a : SocialAccount) :
    PublishResult :=
  match net a.platform p.content p.imageUrl a.accessToken with
  | .ok id => { platform := a.platform, success := true, publishedId := some id }
  | .error e => { platform := a.platform, success := false, error := some e }

/-- The createPostWorker handler (unnamed service file lines 455-595).
Steps, as in the source: load the post (throw if absent); if its status is
not `scheduled`, return without touching anything (lines 479-482); load the
active accounts for the post's platforms and throw when there are none
(lines 487-495); publish through each account, collecting one outcome entry
per account; set status `published` when at least one attempt succeeded,
`failed` otherwise, store the results and increment `retryCount`
unconditionally (lines 541-548).  A thrown handler lands in the catch block
which sets status `failed` and increments `retryCount` (lines 560-570). -/
def createPostWorkerBody (accounts : List SocialAccount) (net : NetOracle)
    (p : Post) (now : Int) : WorkerOut :=
  if p.status = Status.scheduled then
    let accs := cpwAccounts accounts p
    if accs.isEmpty then
      { post := some { p with status := Status.failed,
                              retryCount := p.retryCount + 1 },
        threw := true, calls := 0 }
    else
      let results := accs.map (cpwAttempt net p)
      let hasSuccess := results.any fun r => r.success
      { post := some { p with
          status := if hasSuccess then Status.published else Status.failed,
          publishedAt := if hasSuccess then some now else p.publishedAt,
          publishResults := results,
          retryCount := p.retryCount + 1 },
        threw := false, calls := accs.length }
  else
    { post := some p, threw := false, calls := 0 }

/-- The createPostWorker handler on the loaded post: `createPostWorkerBody`
when the post exists, the throwing not-found path otherwise. -/
def createPostWorkerRun (accounts : List SocialAccount) (net : NetOracle)
    (stored : Option Post) (now : Int) : WorkerOut :=
  match stored with
  | none => { post := none, threw := true, calls := 0 }
  | some p => createPostWorkerBody accounts net p now

/-- A job in the BullMQ queue, with the option fields the services set. -/
structure QJob where
  jobId : String
  jobName : String
  postId : String
  userId : String := ""
  platforms : List Platform := []
  content : String := ""
  imageUrl : Option String := none
  delay : Int := 0
  priority : Option Nat := none
deriving DecidableEq, Repr

/-- `QueueService.schedulePost` (queueService.ts lines 237-269): throws when
Redis is not connected or the queue object is unavailable; computes
`delay = scheduledAt - now` and throws when it is not positive, all before
`queue.add`; otherwise appends the delayed job and returns its id.
`jobSuffix` stands for the `Date.now()` component of the job id. -/
def schedulePost (redisEnabled queueAvail : Bool) (queue : List QJob)
    (postId userId : String) (scheduledAt now : Int)
    (platforms : List Platform) (content : String) (imageUrl : Option String)
    (jobSuffix : String) : Except String (String × List QJob) :=
  if !redisEnabled then
    .error "Queue service is not available - Redis not connected"
  else if !queueAvail then
    .error "Post queue is not available"
  else
    let delay : Int := scheduledAt - now
    if delay ≤ 0 then
      .error "Scheduled time must be in the future"
    else
      let jid := "post-" ++ postId ++ "-" ++ jobSuffix
      let j : QJob :=
        { jobId := jid, jobName := "publish-post", postId := postId,
          userId := userId, platforms := platforms, content := content,
          imageUrl := imageUrl, delay := delay }
      .ok (jid, queue ++ [j])

/-- `QueueService.publishNow` (queueService.ts lines 322-348): throws when
Redis or the queue is unavailable, otherwise appends an undelayed job of
priority 1 and returns its id. -/
def publishNow (redisEnabled queueAvail : Bool) (queue : List QJob)
    (postId userId : String) (platforms : List Platform) (content : String)
    (imageUrl : Option String) (jobSuffix : String) :
    Except String (String × List QJob) :=
  if !redisEnabled then
    .error "Queue service is not available - Redis not connected"
  else if !queueAvail then
    .error "Post queue is not available"
  else
    let jid := "post-now-" ++ postId ++ "-" ++ jobSuffix
    let j : QJob :=
      { jobId := jid, jobName := "publish-post-now", postId := postId,
        userId := userId, platforms := platforms, content := content,
        imageUrl := imageUrl, priority := some 1 }
    .ok (jid, queue ++ [j])

/-- `QueueService.cancelScheduledPost` (queueService.ts lines 271-291).  The
whole body is inside `try { ... } catch { return false }`; the fallible
backend steps are passed in explicitly: `queue?` is `getPostQueue()`
(`none` when the queue object is unavailable), `getJob` the job lookup
(error = rejected promise, `ok none` = job absent), `remove` the removal.
Returns `true` only when the job was found and removed; every other path,
including a backend error, returns `false`. -/
def qsCancelScheduledPost (redisEnabled : Bool) (queue? : Option Unit)
    (getJob : Except String (Option Unit)) (remove : Except String Unit) :
    Bool :=
  if !redisEnabled then false
  else
    match queue? with
    | none => false
    | some _ =>
        match getJob with
        | .error _ => false
        | .ok none => false
        | .ok (some _) =>
            match remove with
            | .error _ => false
            | .ok _ => true

/-- `JobQueueService.cancelScheduledPost` (unnamed service file
lines 358-377).  Same shape, but its catch block ends in `throw error`, so
a rejected backend step propagates: `getPostQueue()` itself may throw
(`queueRes`), and lookup or removal errors are rethrown instead of being
turned into `false`. -/
def jqCancelScheduledPost (redisEnabled : Bool)
    (queueRes : Except String Unit) (getJob : Except String (Option Unit))
    (remove : Except String Unit) : Except String Bool :=
  if !redisEnabled then .ok false
  else
    match queueRes with
    | .error e => .error e
    | .ok _ =>
        match getJob with
        | .error e => .error e
        | .ok none => .ok false
        | .ok (some _) =>
            match remove with
            | .error e => .error e
            | .ok _ => .ok true

/-- The body of the create-post route request (posts router), restricted to
the fields the pipeline reads (`imagePrompt` and `metadata` are stored
verbatim and read by nothing here). -/
structure CreateReq where
  content : String
  imageUrl : Option String := none
  platforms : List Platform
  scheduledAt : Option Int := none
deriving DecidableEq, Repr

/-- The body of the update-post route request.  Each field is `none` when
absent from the request (JS `undefined`); `scheduledAt` distinguishes
absent (`none`), present-but-falsy which clears the schedule
(`some none`), and a new timestamp (`some (some t)`). -/
structure UpdateReq where
  content : Option String := none
  imageUrl : Option String := none
  platforms : Option (List Platform) := none
  scheduledAt : Option (Option Int) := none
deriving DecidableEq, Repr

/-- The observable outcome of one route handler call: the HTTP-level
response (error message or success message), the post as persisted after
the call (`none` when nothing was saved or the post was absent), the queue
after the call, and the job ids passed to `cancelScheduledPost`. -/
instance : DecidableEq (Except String String) := fun a b =>
  match a, b with
  | .ok x, .ok y =>
      if h : x = y then isTrue (by rw [h]) else isFalse (by simp [h])
  | .error x, .error y =>
      if h : x = y then isTrue (by rw [h]) else isFalse (by simp [h])
  | .ok _, .error _ => isFalse (by simp)
  | .error _, .ok _ => isFalse (by simp)

structure RouteOut where
  response : Except String String
  savedPost : Option Post
  queue : List QJob
  cancelled : List String := []
deriving DecidableEq, Repr

/-- The effect on the queue of the routes' fire-and-forget
`QueueService.cancelScheduledPost(jobId)` call: the job is removed when the
backend is reachable, and nothing happens (the call returns `false`)
otherwise. -/
def cancelEffect (redisEnabled queueAvail : Bool) (queue : List QJob)
    (cancelled : List String) : List QJob :=
  if redisEnabled && queueAvail then
    queue.filter fun j => !(cancelled.contains j.jobId)
  else queue

/-- The route's content validation `!content || !content.trim()`: the
content is missing, empty, or whitespace only. -/
def blankContent (s : String) : Bool :=
  s.toList.all Char.isWhitespace

/-- The create-post route handler (posts router, `POST /`): validates the
content, the platform list, and that an active account exists for every
requested platform; then, when `scheduledAt` is present, rejects a
timestamp not strictly in the future before the post is saved; otherwise
saves the post (as `scheduled` or `draft`) and, when scheduled, registers
the job and saves its id on the post.  A throwing `schedulePost` is caught
by the route's catch block (HTTP 500) after the post was already saved. -/
def createPostRoute (accounts : List SocialAccount)
    (redisEnabled queueAvail : Bool) (queue : List QJob)
    (postId userId : String) (req : CreateReq) (now : Int)
    (jobSuffix : String) : RouteOut :=
  if blankContent req.content then
    { response := .error "Content is required", savedPost := none,
      queue := queue }
  else if req.platforms.isEmpty then
    { response := .error "At least one platform is required",
      savedPost := none, queue := queue }
  else if !(req.platforms.all fun pl =>
      (findActiveAccount accounts userId pl).isSome) then
    { response := .error "Please connect your accounts for the missing platforms",
      savedPost := none, queue := queue }
  else
    match req.scheduledAt with
    | some t =>
        if t ≤ now then
          { response := .error "Scheduled time must be in the future",
            savedPost := none, queue := queue }
        else
          let post : Post :=
            { userId := userId, content := req.content,
              imageUrl := req.imageUrl, platforms := req.platforms,
              scheduledAt := some t, status := Status.scheduled }
          match schedulePost redisEnabled queueAvail queue postId userId t now
              req.platforms req.content req.imageUrl jobSuffix with
          | .error _ =>
              { response := .error "Failed to create post",
                savedPost := some post, queue := queue }
          | .ok (jid, queue') =>
              { response := .ok "Post scheduled successfully",
                savedPost := some { post with jobId := some jid },
                queue := queue' }
    | none =>
        let post : Post :=
          { userId := userId, content := req.content,
            imageUrl := req.imageUrl, platforms := req.platforms,
            status := Status.draft }
        { response := .ok "Draft saved successfully",
          savedPost := some post, queue := queue }

/-- The update-post route handler (posts router, `PUT /:id`): 404 when the
post is absent; rejected when it is already `published`; otherwise the
outstanding job of a scheduled post is cancelled first, the supplied fields
are copied onto the in-memory post, and only a request that carries a
`scheduledAt` field touches the schedule: a future timestamp re-registers a
job, a falsy value reverts the post to `draft`, and an absent field leaves
status and `jobId` exactly as they were (even though the job was just
cancelled).  A past timestamp is rejected before the post is saved, but
after the cancellation already happened. -/
def updatePostRoute (redisEnabled queueAvail : Bool) (queue : List QJob)
    (stored : Option Post) (postId userId : String) (req : UpdateReq)
    (now : Int) (jobSuffix : String) : RouteOut :=
  match stored with
  | none =>
      { response := .error "Post not found", savedPost := none,
        queue := queue }
  | some p =>
      if p.status = Status.published then
        { response := .error "Cannot edit published posts",
          savedPost := some p, queue := queue }
      else
        let cancelled :=
          match p.status, p.jobId with
          | Status.scheduled, some j => [j]
          | _, _ => []
        let q1 := cancelEffect redisEnabled queueAvail queue cancelled
        let p1 := { p with
          content := req.content.getD p.content,
          imageUrl := Option.or req.imageUrl p.imageUrl,
          platforms := req.platforms.getD p.platforms }
        match req.scheduledAt with
        | none =>
            { response := .ok "Post updated successfully",
              savedPost := some p1, queue := q1, cancelled := cancelled }
        | some (some t) =>
            if t ≤ now then
              { response := .error "Scheduled time must be in the future",
                savedPost := some p, queue := q1, cancelled := cancelled }
            else
              match schedulePost redisEnabled queueAvail q1 postId userId t
                  now p1.platforms p1.content p1.imageUrl jobSuffix with
              | .error _ =>
                  { response := .error "Failed to update post",
                    savedPost := some p, queue := q1, cancelled := cancelled }
              | .ok (jid, q2) =>
                  let p2 := { p1 with scheduledAt := some t, status := Status.scheduled, jobId := some jid }
                  { response := .ok "Post updated successfully",
                    savedPost := some p2, queue := q2,
                    cancelled := cancelled }
        | some none =>
            let p2 := { p1 with scheduledAt := none, status := Status.draft, jobId := none }
            { response := .ok "Post updated successfully",
              savedPost := some p2, queue := q1, cancelled := cancelled }

/-- The immediate-publish route handler (posts router, `POST /:id/publish`):
404 when the post is absent; rejected when it is already `published`,
before anything else happens; otherwise the outstanding job of a scheduled
post is cancelled, an elevated-priority job is enqueued via
`QueueService.publishNow`, and the post is optimistically saved as
`published` with `publishedAt = now` and the new job id — before any
per-platform outcome exists.  A throwing `publishNow` is caught by the
route (HTTP 500) and the post is not saved. -/
def publishRoute (redisEnabled queueAvail : Bool) (queue : List QJob)
    (stored : Option Post) (postId userId : String) (now : Int)
    (jobSuffix : String) : RouteOut :=
  match stored with
  | none =>
      { response := .error "Post not found", savedPost := none,
        queue := queue }
  | some p =>
      if p.status = Status.published then
        { response := .error "Post is already published",
          savedPost := some p, queue := queue }
      else
        let cancelled :=
          match p.status, p.jobId with
          | Status.scheduled, some j => [j]
          | _, _ => []
        let q1 := cancelEffect redisEnabled queueAvail queue cancelled
        match publishNow redisEnabled queueAvail q1 postId userId p.platforms
            p.content p.imageUrl jobSuffix with
        | .error _ =>
            { response := .error "Failed to publish post",
              savedPost := some p, queue := q1, cancelled := cancelled }
        | .ok (jid, q2) =>
            let p2 := { p with status := Status.published, publishedAt := some now, jobId := some jid }
            { response := .ok "Post queued for publishing",
              savedPost := some p2, queue := q2, cancelled := cancelled }

/-- `InstagramService.postToInstagram` (unnamed service file lines 74-115):
the access-token and image guards throw before any HTTP request; the three
Graph API calls of the happy path are collapsed into one oracle
consultation `ig token imageUrl content`, whose error is rewrapped as
`Failed to post to Instagram` by the catch block.  Returns the result and
the number of network interactions. -/
def postToInstagram (ig : String → String → String → Except String String)
    (content : String) (imageUrl : Option String)
    (accessToken : Option String) : Except String String × Nat :=
  match accessToken with
  | none => (.error "Instagram access token required", 0)
  | some tok =>
      match imageUrl with
      | none => (.error "Instagram posts require an image", 0)
      | some url =>
          match ig tok url content with
          | .ok id => (.ok id, 1)
          | .error _ => (.error "Failed to post to Instagram", 1)

/-! ### Concrete fixtures used by the counterexamples and witnesses -/

/-- An active twitter credential of user `u`. -/
def accTwitter : SocialAccount :=
  { userId := "u", platform := .twitter, accessToken := "tk1", isActive := true }

/-- An active linkedin credential of user `u`. -/
def accLinkedin : SocialAccount :=
  { userId := "u", platform := .linkedin, accessToken := "tk2", isActive := true }

/-- An active instagram credential of user `u`. -/
def accInstagram : SocialAccount :=
  { userId := "u", platform := .instagram, accessToken := "tk3", isActive := true }

/-- An adapter world where twitter accepts the post and the other platforms
reject it. -/
def mixedNet : NetOracle := fun p _ _ _ =>
  match p with
  | .twitter => .ok "tw1"
  | .linkedin => .error "boom"
  | .instagram => .error "down"

/-- An adapter world where every platform accepts the post. -/
def okNet : NetOracle := fun _ _ _ _ => .ok "ext1"

/-! ### Helper lemmas about the per-platform attempts -/

/-- The outcome entry built from an adapter call carries the platform it
was built for. -/
theorem ofAdapter_platform (p : Platform) (r : Except String String) :
    (ofAdapter p r).platform = p := by
  cases r <;> rfl

/-- Every per-platform attempt of the queueService worker records an
outcome entry for exactly the platform it attempted. -/
theorem attemptPlatform_fst_platform (accounts : List SocialAccount)
    (userId : String) (net : NetOracle) (content : String)
    (img : Option String) (pl : Platform) :
    (attemptPlatform accounts userId net content img pl).1.platform = pl := by
  unfold attemptPlatform
  cases findActiveAccount accounts userId pl with
  | none => rfl
  | some acc => cases pl <;> cases img <;> simp [ofAdapter_platform]

/-- The outcome entry built by createPostWorker's loop carries the platform
of the account it published through. -/
theorem cpwAttempt_platform (net : NetOracle) (p : Post) (a : SocialAccount) :
    (cpwAttempt net p a).platform = a.platform := by
  unfold cpwAttempt
  cases net a.platform p.content p.imageUrl a.accessToken <;> rfl

/-- The outcome entries of one queueService worker invocation. -/
def gwOutcomes (accounts : List SocialAccount) (net : NetOracle)
    (jd : JobData) : List PublishResult :=
  (gwResults accounts net jd).map Prod.fst

/-- `getWorkerRun` on an existing post is `getWorkerBody`. -/
theorem getWorkerRun_some (accounts : List SocialAccount) (net : NetOracle)
    (jd : JobData) (p : Post) (now : Int) :
    getWorkerRun accounts net jd (some p) now =
      getWorkerBody accounts net jd p now := rfl

/-- `createPostWorkerRun` on an existing post is `createPostWorkerBody`. -/
theorem createPostWorkerRun_some (accounts : List SocialAccount)
    (net : NetOracle) (p : Post) (now : Int) :
    createPostWorkerRun accounts net (some p) now =
      createPostWorkerBody accounts net p now := rfl

/-- Characterization of the post stored by one queueService worker
invocation: the outcome log is replaced by this invocation's outcomes, the
status is `failed` exactly when some outcome failed, and the retry counter
grows exactly when every outcome failed. -/
theorem gwBody_post_spec (accounts : List SocialAccount) (net : NetOracle)
    (jd : JobData) (p : Post) (now : Int) :
    (getWorkerBody accounts net jd p now).post =
      some { p with
        status := if (gwOutcomes accounts net jd).any (fun r => !r.success)
          then Status.failed else Status.published,
        publishedAt := some now,
        publishResults := gwOutcomes accounts net jd,
        retryCount := p.retryCount +
          (if gwAllFailed accounts net jd then 1 else 0) } := by
  simp only [getWorkerBody, gwOutcomes, gwAllFailed]
  by_cases hany :
      (((gwResults accounts net jd).map Prod.fst).any fun r => !r.success) = true
  · by_cases hall :
        (((gwResults accounts net jd).map Prod.fst).all fun r => !r.success) = true
    · simp [hany, hall]
    · simp [hany, hall]
  · have hand :
        ((((gwResults accounts net jd).map Prod.fst).any fun r => !r.success) &&
          (((gwResults accounts net jd).map Prod.fst).all fun r => !r.success)) = false := by
      simp [Bool.eq_false_iff.mpr hany]
    simp [hany, hand]

/-- The network calls of one queueService worker invocation depend only on
the job data, never on the stored post. -/
theorem gwBody_calls (accounts : List SocialAccount) (net : NetOracle)
    (jd : JobData) (p : Post) (now : Int) :
    (getWorkerBody accounts net jd p now).calls =
      ((gwResults accounts net jd).map Prod.snd).sum := by
  simp only [getWorkerBody]
  split <;> rfl

/-- createPostWorker's idempotency guard: a post whose status is not
`scheduled` is returned untouched, with no adapter call. -/
theorem cpwBody_noop (accounts : List SocialAccount) (net : NetOracle)
    (p : Post) (now : Int) (h : p.status ≠ Status.scheduled) :
    createPostWorkerBody accounts net p now =
      { post := some p, threw := false, calls := 0 } := by
  simp [createPostWorkerBody, h]

/-- createPostWorker throws when no active account matches any target
platform: the post is marked `failed` and its retry counter grows. -/
theorem cpwBody_noAccounts (accounts : List SocialAccount) (net : NetOracle)
    (p : Post) (now : Int) (hst : p.status = Status.scheduled)
    (he : (cpwAccounts accounts p).isEmpty = true) :
    (createPostWorkerBody accounts net p now).post =
      some { p with status := Status.failed,
                    retryCount := p.retryCount + 1 } := by
  simp [createPostWorkerBody, hst, he]

/-- Characterization of the post stored by one createPostWorker invocation
that passes the status guard and finds at least one account: the outcome
log is replaced by one entry per matched account, the status is `published`
exactly when some attempt succeeded, and the retry counter always grows. -/
theorem cpwBody_post_spec (accounts : List SocialAccount) (net : NetOracle)
    (p : Post) (now : Int) (hst : p.status = Status.scheduled)
    (hne : (cpwAccounts accounts p).isEmpty = false) :
    (createPostWorkerBody accounts net p now).post =
      some { p with
        status := if ((cpwAccounts accounts p).map (cpwAttempt net p)).any
            (fun r => r.success) then Status.published else Status.failed,
        publishedAt := if ((cpwAccounts accounts p).map (cpwAttempt net p)).any
            (fun r => r.success) then some now else p.publishedAt,
        publishResults := (cpwAccounts accounts p).map (cpwAttempt net p),
        retryCount := p.retryCount + 1 } := by
  simp [createPostWorkerBody, hst, hne]

/-! ### C1: aggregate status under partial failure -/

def c1Job : JobData :=
  { postId := "p", userId := "u", platforms := [.twitter, .linkedin], content := "hello" }

def c1Post : Post :=
  { userId := "u", content := "hello", platforms := [.twitter, .linkedin], status := .scheduled }

/-- C1 (counterexample): in the queueService worker a mixed outcome — the
twitter attempt succeeds, the linkedin attempt fails — leaves the post with
final status `failed`, so the claim that at least one successful platform
call yields final status `published` is false for this handler. -/
theorem C1_mixed_outcome_counterexample :
    ((getWorkerRun [accTwitter, accLinkedin] mixedNet c1Job (some c1Post) 100).post.map
      fun q => (q.status, q.publishResults.any fun r => r.success))
      = some (Status.failed, true) := by decide

/-- C1 (amended): the queueService worker marks the post `published` only
when every recorded outcome succeeded (a mixed outcome yields `failed`),
while the createPostWorker handler marks it `published` exactly when at
least one recorded outcome succeeded. -/
theorem C1_amended_aggregate_status :
    (∀ (accounts : List SocialAccount) (net : NetOracle) (jd : JobData)
        (p : Post) (now : Int) (q : Post),
      (getWorkerRun accounts net jd (some p) now).post = some q →
      (q.status = Status.published ↔
        q.publishResults.all (fun r => r.success) = true)) ∧
    (∀ (accounts : List SocialAccount) (net : NetOracle) (p : Post)
        (now : Int) (q : Post),
      p.status = Status.scheduled →
      (cpwAccounts accounts p).isEmpty = false →
      (createPostWorkerRun accounts net (some p) now).post = some q →
      (q.status = Status.published ↔
        q.publishResults.any (fun r => r.success) = true)) := by
  constructor
  · intro accounts net jd p now q h
    rw [getWorkerRun_some, gwBody_post_spec] at h
    injection h with h
    subst h
    by_cases hany :
        ((gwOutcomes accounts net jd).any fun r => !r.success) = true
    · simp [hany, List.all_eq_not_any_not]
    · simp [hany, List.all_eq_not_any_not,
        Bool.eq_false_iff.mpr hany]
  · intro accounts net p now q hst hne h
    rw [createPostWorkerRun_some, cpwBody_post_spec accounts net p now hst hne] at h
    injection h with h
    subst h
    by_cases hs :
        (((cpwAccounts accounts p).map (cpwAttempt net p)).any fun r => r.success) = true
    · simp [hs]
    · simp [hs]

/-! ### C2: published implies a successful outcome -/

def c2Post : Post :=
  { userId := "u", content := "c", platforms := [.twitter], status := .draft }

/-- C2 (counterexample): the immediate-publish route marks a draft post
`published` while its outcome log stays empty — status `published` with
zero successful per-platform outcomes, refuting the claimed invariant for
the publish-now operation. -/
theorem C2_optimistic_publish_counterexample :
    ((publishRoute true true [] (some c2Post) "p1" "u" 50 "s").savedPost.map
      fun q => (q.status, q.publishResults))
      = some (Status.published, []) := by decide

/-- C2 (amended): the final aggregate update of either worker stores status
`published` only together with at least one successful outcome entry; but
the immediate-publish route sets status `published` optimistically, leaving
the outcome log exactly as it was — the invariant does not hold across all
operations. -/
theorem C2_amended_published_invariant :
    (∀ (accounts : List SocialAccount) (net : NetOracle) (jd : JobData)
        (p : Post) (now : Int) (q : Post),
      jd.platforms ≠ [] →
      (getWorkerRun accounts net jd (some p) now).post = some q →
      q.status = Status.published →
      q.publishResults.any (fun r => r.success) = true) ∧
    (∀ (accounts : List SocialAccount) (net : NetOracle) (p : Post)
        (now : Int) (q : Post),
      p.status = Status.scheduled →
      (createPostWorkerRun accounts net (some p) now).post = some q →
      q.status = Status.published →
      q.publishResults.any (fun r => r.success) = true) ∧
    (∀ (queue : List QJob) (postId userId : String) (now : Int)
        (sfx : String) (p : Post),
      p.status ≠ Status.published →
      ((publishRoute true true queue (some p) postId userId now sfx).savedPost.map
        fun q => (q.status, q.publishResults))
        = some (Status.published, p.publishResults)) := by
  refine ⟨?_, ?_, ?_⟩
  · intro accounts net jd p now q hne h hpub
    rw [getWorkerRun_some, gwBody_post_spec] at h
    injection h with h
    subst h
    simp only at hpub
    by_cases hany :
        ((gwOutcomes accounts net jd).any fun r => !r.success) = true
    · rw [if_pos hany] at hpub
      cases hpub
    · have hall : ((gwOutcomes accounts net jd).all fun r => r.success) = true := by
        rw [List.all_eq_not_any_not, Bool.eq_false_iff.mpr hany]
        rfl
      have hlen : gwOutcomes accounts net jd ≠ [] := by
        simp only [gwOutcomes, gwResults]
        intro hnil
        rcases List.map_eq_nil_iff.mp (List.map_eq_nil_iff.mp hnil) with h0
        exact hne h0
      obtain ⟨r, hr⟩ := List.exists_mem_of_ne_nil _ hlen
      simp only [List.any_eq_true]
      exact ⟨r, hr, List.all_eq_true.mp hall r hr⟩
  · intro accounts net p now q hst h hpub
    by_cases hemp : (cpwAccounts accounts p).isEmpty = true
    · rw [createPostWorkerRun_some, cpwBody_noAccounts accounts net p now hst hemp] at h
      injection h with h
      subst h
      cases hpub
    · rw [createPostWorkerRun_some,
        cpwBody_post_spec accounts net p now hst (Bool.eq_false_iff.mpr hemp)] at h
      injection h with h
      subst h
      simp only at hpub ⊢
      by_cases hs :
          (((cpwAccounts accounts p).map (cpwAttempt net p)).any fun r => r.success) = true
      · exact hs
      · rw [if_neg] at hpub
        · cases hpub
        · simpa using hs
  · intro queue postId userId now sfx p h
    simp [publishRoute, publishNow, h]

/-- The outcome entries of the queueService worker loop list the attempted
platforms in order. -/
theorem map_attempt_platforms (accounts : List SocialAccount) (userId : String)
    (net : NetOracle) (content : String) (img : Option String) :
    ∀ l : List Platform,
      ((l.map (attemptPlatform accounts userId net content img)).map
        Prod.fst).map (fun r => r.platform) = l := by
  intro l
  induction l with
  | nil => rfl
  | cons x xs ih =>
      simp only [List.map_cons, List.map_cons, ih,
        attemptPlatform_fst_platform]

/-- The outcome entries of the createPostWorker loop list the matched
accounts' platforms in order. -/
theorem map_cpwAttempt_platforms (net : NetOracle) (p : Post) :
    ∀ l : List SocialAccount,
      (l.map (cpwAttempt net p)).map (fun r => r.platform) =
        l.map (fun a => a.platform) := by
  intro l
  induction l with
  | nil => rfl
  | cons x xs ih =>
      simp only [List.map_cons, ih, cpwAttempt_platform]

/-! ### C3: idempotency guard against redelivery -/

def c3Job : JobData :=
  { postId := "p", userId := "u", platforms := [.twitter], content := "hi" }

def c3Post : Post :=
  { userId := "u", content := "hi", platforms := [.twitter], status := .published }

/-- C3 (counterexample): re-invoking the queueService worker for a post
already in `published` status is not a no-op: one adapter network call is
made and an outcome entry is written into the empty outcome log, refuting
the claim for this handler. -/
theorem C3_no_guard_counterexample :
    c3Post.status = Status.published ∧ c3Post.publishResults.length = 0 ∧
    (getWorkerRun [accTwitter] okNet c3Job (some c3Post) 100).calls = 1 ∧
    ((getWorkerRun [accTwitter] okNet c3Job (some c3Post) 100).post.map
      fun q => q.publishResults.length) = some 1 := by decide

/-- C3 (amended): only the createPostWorker handler implements the
idempotency guard — a post whose status is not `scheduled` is returned
untouched with no adapter call; the queueService worker has no guard: the
number of adapter network calls it makes depends only on the job data,
never on the stored post. -/
theorem C3_amended_idempotency_guard :
    (∀ (accounts : List SocialAccount) (net : NetOracle) (p : Post)
        (now : Int),
      p.status ≠ Status.scheduled →
      createPostWorkerRun accounts net (some p) now =
        { post := some p, threw := false, calls := 0 }) ∧
    (∀ (accounts : List SocialAccount) (net : NetOracle) (jd : JobData)
        (p : Post) (now : Int),
      (getWorkerRun accounts net jd (some p) now).calls =
        ((gwResults accounts net jd).map Prod.snd).sum) := by
  constructor
  · intro accounts net p now h
    rw [createPostWorkerRun_some]
    exact cpwBody_noop accounts net p now h
  · intro accounts net jd p now
    rw [getWorkerRun_some]
    exact gwBody_calls accounts net jd p now

/-! ### C4: one outcome entry per target platform -/

def c4Post : Post :=
  { userId := "u", content := "x", platforms := [.twitter, .linkedin], status := .scheduled }

/-- C4 (counterexample): the createPostWorker handler, run on a post
targeting twitter and linkedin while only a twitter credential exists,
records a single outcome entry — linkedin, a target platform with no
active credential, receives no outcome entry at all, refuting the claim
that every target platform receives exactly one entry. -/
theorem C4_skipped_platform_counterexample :
    c4Post.platforms = [Platform.twitter, Platform.linkedin] ∧
    ((createPostWorkerRun [accTwitter] mixedNet (some c4Post) 0).post.map
      fun q => q.publishResults.map fun r => r.platform)
      = some [Platform.twitter] := by decide

/-- C4 (amended): in the queueService worker every target platform of the
job receives exactly one outcome entry, in order, and a platform with no
active credential receives the failed no-account entry without an adapter
call while the other platforms are still attempted; the createPostWorker
handler instead records entries only for the platforms that have an active
account — a platform with none is silently skipped. -/
theorem C4_amended_outcome_entries :
    (∀ (accounts : List SocialAccount) (net : NetOracle) (jd : JobData)
        (p : Post) (now : Int) (q : Post),
      (getWorkerRun accounts net jd (some p) now).post = some q →
      q.publishResults.map (fun r => r.platform) = jd.platforms) ∧
    (∀ (accounts : List SocialAccount) (userId : String) (net : NetOracle)
        (content : String) (img : Option String) (pl : Platform),
      findActiveAccount accounts userId pl = none →
      attemptPlatform accounts userId net content img pl =
        ({ platform := pl, success := false, publishedId := none,
           error := some (noAccountError pl userId) }, 0)) ∧
    (∀ (accounts : List SocialAccount) (net : NetOracle) (p : Post)
        (now : Int) (q : Post),
      p.status = Status.scheduled →
      (cpwAccounts accounts p).isEmpty = false →
      (createPostWorkerRun accounts net (some p) now).post = some q →
      q.publishResults.map (fun r => r.platform) =
        (cpwAccounts accounts p).map (fun a => a.platform)) ∧
    (∀ (accounts : List SocialAccount) (p : Post) (pl : Platform),
      findActiveAccount accounts p.userId pl = none →
      pl ∉ (cpwAccounts accounts p).map (fun a => a.platform)) := by
  refine ⟨?_, ?_, ?_, ?_⟩
  · intro accounts net jd p now q h
    rw [getWorkerRun_some, gwBody_post_spec] at h
    injection h with h
    subst h
    simp only [gwOutcomes, gwResults]
    exact map_attempt_platforms accounts jd.userId net jd.content jd.imageUrl
      jd.platforms
  · intro accounts userId net content img pl h
    simp [attemptPlatform, h]
  · intro accounts net p now q hst hne h
    rw [createPostWorkerRun_some,
      cpwBody_post_spec accounts net p now hst hne] at h
    injection h with h
    subst h
    exact map_cpwAttempt_platforms net p (cpwAccounts accounts p)
  · intro accounts p pl h hmem
    obtain ⟨a, hmem', hpl⟩ := List.mem_map.mp hmem
    obtain ⟨hacc, hcond⟩ := List.mem_filter.mp hmem'
    have hprops := of_decide_eq_true hcond
    have hnone : ∀ x ∈ accounts,
        ¬(decide (x.userId = p.userId ∧ x.platform = pl ∧
          x.isActive = true) = true) := by
      simpa [findActiveAccount, List.find?_eq_none] using h
    exact hnone a hacc (decide_eq_true ⟨hprops.1, hpl, hprops.2.2⟩)

/-! ### C5: the retry counter -/

def c5Post : Post :=
  { userId := "u", content := "y", platforms := [.twitter], status := .scheduled }

/-- C5 (counterexample): a createPostWorker invocation whose only attempt
succeeds ends with status `published` and still increments the retry
counter from 0 to 1, refuting the claim that the counter is untouched when
the aggregate is `published`. -/
theorem C5_retry_on_success_counterexample :
    c5Post.retryCount = 0 ∧
    ((createPostWorkerRun [accTwitter] okNet (some c5Post) 10).post.map
      fun q => (q.status, q.retryCount)) = some (Status.published, 1) := by decide

/-- C5 (amended): the queueService worker increments the retry counter
exactly once per invocation in which every platform attempt failed, and
leaves it unchanged otherwise (in particular whenever at least one attempt
succeeded); the createPostWorker handler increments it once on every
invocation that passes the status guard, successful publishes included. -/
theorem C5_amended_retry_counter :
    (∀ (accounts : List SocialAccount) (net : NetOracle) (jd : JobData)
        (p : Post) (now : Int),
      ((getWorkerRun accounts net jd (some p) now).post.map
        fun q => q.retryCount)
        = some (p.retryCount +
            (if gwAllFailed accounts net jd then 1 else 0))) ∧
    (∀ (accounts : List SocialAccount) (net : NetOracle) (p : Post)
        (now : Int),
      p.status = Status.scheduled →
      ((createPostWorkerRun accounts net (some p) now).post.map
        fun q => q.retryCount) = some (p.retryCount + 1)) := by
  constructor
  · intro accounts net jd p now
    rw [getWorkerRun_some, gwBody_post_spec]
    rfl
  · intro accounts net p now hst
    rw [createPostWorkerRun_some]
    by_cases hemp : (cpwAccounts accounts p).isEmpty = true
    · rw [cpwBody_noAccounts accounts net p now hst hemp]
      rfl
    · rw [cpwBody_post_spec accounts net p now hst (Bool.eq_false_iff.mpr hemp)]
      rfl

/-! ### C6: past timestamps are rejected before any effect -/

/-- C6: a scheduling request whose timestamp is not strictly in the future
is rejected synchronously: the create-post route persists no post, leaves
the queue untouched and answers with an error, and
`QueueService.schedulePost` errors before any job is added, whatever the
state of the queue backend. -/
theorem C6_reject_past_schedule :
    (∀ (accounts : List SocialAccount) (re qa : Bool) (queue : List QJob)
        (postId userId : String) (req : CreateReq) (now : Int)
        (sfx : String) (t : Int),
      req.scheduledAt = some t → t ≤ now →
      (createPostRoute accounts re qa queue postId userId req now sfx).savedPost
          = none ∧
      (createPostRoute accounts re qa queue postId userId req now sfx).queue
          = queue ∧
      ∃ e, (createPostRoute accounts re qa queue postId userId req now sfx).response
          = Except.error e) ∧
    (∀ (re qa : Bool) (queue : List QJob) (postId userId : String)
        (t now : Int) (platforms : List Platform) (content : String)
        (img : Option String) (sfx : String),
      t ≤ now →
      ∃ e, schedulePost re qa queue postId userId t now platforms content img
          sfx = Except.error e) := by
  constructor
  · intro accounts re qa queue postId userId req now sfx t h1 h2
    simp only [createPostRoute, h1]
    split
    · exact ⟨rfl, rfl, _, rfl⟩
    · split
      · exact ⟨rfl, rfl, _, rfl⟩
      · split
        · exact ⟨rfl, rfl, _, rfl⟩
        · exact ⟨rfl, rfl, _, rfl⟩
  · intro re qa queue postId userId t now platforms content img sfx h
    unfold schedulePost
    cases re with
    | false => exact ⟨_, rfl⟩
    | true =>
        cases qa with
        | false => exact ⟨_, rfl⟩
        | true =>
            have hd : t - now ≤ 0 := by omega
            simp only [Bool.not_true, Bool.false_eq_true, if_false]
            rw [if_pos hd]
            exact ⟨_, rfl⟩

/-! ### C7: instagram requires media, checked before any network call -/

/-- C7: when the post owner has an active instagram credential but the
publish attempt carries no image, the queueService worker's instagram case
records a failed outcome whose reason says an image is required, making
zero network calls; and the `postToInstagram` adapter itself guards the
missing image before its first request. -/
theorem C7_instagram_requires_image :
    (∀ (accounts : List SocialAccount) (userId : String) (net : NetOracle)
        (content : String) (acc : SocialAccount),
      findActiveAccount accounts userId Platform.instagram = some acc →
      attemptPlatform accounts userId net content none Platform.instagram =
        ({ platform := Platform.instagram, success := false,
           publishedId := none,
           error := some "Instagram posts require an image" }, 0)) ∧
    (∀ (ig : String → String → String → Except String String)
        (content : String) (tok : String),
      postToInstagram ig content none (some tok) =
        (Except.error "Instagram posts require an image", 0)) := by
  constructor
  · intro accounts userId net content acc h
    simp [attemptPlatform, h]
  · intro ig content tok
    rfl

/-! ### C8: rescheduling on update -/

def c8Post : Post :=
  { userId := "u", content := "old", platforms := [.twitter],
    status := .scheduled, scheduledAt := some 1000, jobId := some "job-1" }

def c8Req : UpdateReq := { content := some "new" }

def c8Job : QJob :=
  { jobId := "job-1", jobName := "publish-post", postId := "p8", delay := 900 }

/-- C8: updating only the content of a scheduled post cancels its pending
job ("job-1" is removed from the queue) but registers no replacement: the
post is saved still in `scheduled` status, still holding the now-dead
handle "job-1", while the queue is empty — the update succeeds and the post
leaves the route neither as a draft without a handle nor as scheduled with
a live one. -/
theorem C8_stale_schedule_eval :
    (updatePostRoute true true [c8Job] (some c8Post) "p8" "u" c8Req 100
        "sfx").cancelled = ["job-1"] ∧
    (updatePostRoute true true [c8Job] (some c8Post) "p8" "u" c8Req 100
        "sfx").queue = [] ∧
    ((updatePostRoute true true [c8Job] (some c8Post) "p8" "u" c8Req 100
        "sfx").savedPost.map fun q => (q.status, q.jobId, q.content))
      = some (Status.scheduled, some "job-1", "new") ∧
    (updatePostRoute true true [c8Job] (some c8Post) "p8" "u" c8Req 100
        "sfx").response = Except.ok "Post updated successfully" := by decide

/-! ### C9: cancellation never throws -/

/-- C9 (counterexample): the JobQueueService variant of
`cancelScheduledPost` propagates a backend error instead of returning a
boolean — with Redis marked enabled but `getPostQueue()` throwing, the call
ends in a thrown error, refuting "returns a boolean and never throws" for
this implementation. -/
theorem C9_rethrow_counterexample :
    jqCancelScheduledPost true (Except.error "Redis connection failed")
        (Except.ok none) (Except.ok ())
      = Except.error "Redis connection failed" := by rfl

/-- C9 (amended): `QueueService.cancelScheduledPost` returns a boolean and
never throws — `true` exactly when Redis is enabled, the queue object
exists, the lookup finds the job and the removal succeeds, `false` in every
other case including backend errors; the JobQueueService variant returns
`false` when Redis is disabled or the job is absent, but rethrows a
backend error from obtaining the queue, the lookup, or the removal. -/
theorem C9_amended_cancel_contract :
    (∀ (re : Bool) (q : Option Unit) (gj : Except String (Option Unit))
        (rm : Except String Unit),
      qsCancelScheduledPost re q gj rm = true ↔
        (re = true ∧ q = some () ∧ gj = Except.ok (some ()) ∧
          rm = Except.ok ())) ∧
    (∀ (gj : Except String (Option Unit)) (rm : Except String Unit)
        (e : String),
      jqCancelScheduledPost true (Except.error e) gj rm = Except.error e) ∧
    (∀ (qr : Except String Unit) (gj : Except String (Option Unit))
        (rm : Except String Unit),
      jqCancelScheduledPost false qr gj rm = Except.ok false) ∧
    (∀ (rm : Except String Unit) (e : String),
      jqCancelScheduledPost true (Except.ok ()) (Except.error e) rm
          = Except.error e ∧
      jqCancelScheduledPost true (Except.ok ()) (Except.ok none) rm
          = Except.ok false) := by
  refine ⟨?_, ?_, ?_, ?_⟩
  · intro re q gj rm
    constructor
    · intro h
      cases re with
      | false => simp [qsCancelScheduledPost] at h
      | true =>
          cases q with
          | none => simp [qsCancelScheduledPost] at h
          | some u =>
              cases gj with
              | error e => simp [qsCancelScheduledPost] at h
              | ok o =>
                  cases o with
                  | none => simp [qsCancelScheduledPost] at h
                  | some v =>
                      cases rm with
                      | error e => simp [qsCancelScheduledPost] at h
                      | ok w => exact ⟨rfl, rfl, rfl, rfl⟩
    · rintro ⟨rfl, rfl, rfl, rfl⟩
      rfl
  · intro gj rm e
    rfl
  · intro qr gj rm
    rfl
  · intro rm e
    exact ⟨rfl, rfl⟩

/-! ### C10: publishing an already-published post is rejected -/

/-- C10: calling the immediate-publish route on a post whose status is
already `published` is rejected with an error before anything happens: no
job is cancelled or enqueued, the queue is untouched and the post is saved
back unchanged. -/
theorem C10_publish_already_published (re qa : Bool) (queue : List QJob)
    (postId userId : String) (now : Int) (sfx : String) (p : Post)
    (h : p.status = Status.published) :
    publishRoute re qa queue (some p) postId userId now sfx =
      { response := Except.error "Post is already published",
        savedPost := some p, queue := queue, cancelled := [] } := by
  simp [publishRoute, h]

def c10Post : Post :=
  { userId := "u", content := "c", platforms := [.twitter],
    status := .published }

/-- C10 (witness): the rejection at a concrete published post. -/
theorem C10_publish_already_published_witness :
    publishRoute true true [] (some c10Post) "p" "u" 5 "s" =
      { response := Except.error "Post is already published",
        savedPost := some c10Post, queue := [], cancelled := [] } :=
  C10_publish_already_published true true [] "p" "u" 5 "s" c10Post rfl

end SociaSync
